import Mathlib

/-!
Verification of the PKGBUILD generator (`src/config/arch.rs`).

The development shallowly embeds the two core operations of the program:

* `Cargo.to_config` — the resolution of a fully-populated `ArchConfig`
  from the parsed manifest plus the sparse `[package.metadata.arch]`
  override block (`ToPackageConfig::to_config`, arch.rs lines 242-317);
* `ArchConfig.generate_pkgbuild` — the rendering of an `ArchConfig`
  into PKGBUILD text and the write of that text to a file
  (`ArchConfig::generate_pkgbuild`, arch.rs lines 170-238).

Rust `String` is embedded as Lean `String`, `Vec<String>` as
`List String`, `Option<T>` as `Option T`.  The file
`src/config/PKGBUILD-TEMPLATE` (spliced with `include_str!`) is not part
of the sources, so the rendering function is parameterized by the
template text; every property below holds for an arbitrary template.
-/

/-- Embeds the Rust `str::split` with a single-character pattern,
operating on the character list of a string: `N` occurrences of the
separator yield `N + 1` pieces, so the empty list yields `[[]]` and a
list without the separator yields a single piece. -/
def splitCharList (sep : Char) : List Char → List (List Char)
  | [] => [[]]
  | c :: rest =>
    match splitCharList sep rest with
    | [] => [[]]
    | h :: t => if c = sep then [] :: h :: t else (c :: h) :: t

/-- Embeds Rust `s.split(sep).map(|s| s.to_string()).collect::<Vec<String>>()`
for a single-character separator pattern. -/
def splitOnChar (sep : Char) (s : String) : List String :=
  (splitCharList sep s.data).map String.mk

/-- Embeds Rust `s.replace("-", "_")` (arch.rs line 205): both pattern and
replacement are single characters, so the call is a per-character map. -/
def dashToUnderscore (s : String) : String :=
  String.mk (s.data.map fun c => if c = '-' then '_' else c)

/-- Embeds the struct `CargoArch` (arch.rs lines 13-78): the sparse
`[package.metadata.arch]` override block, every field optional. -/
structure CargoArch where
  maintainers : Option (List String)
  pkgname : Option String
  pkgver : Option String
  pkgrel : Option String
  epoch : Option String
  pkgdesc : Option String
  url : Option String
  license : Option (List String)
  install : Option String
  changelog : Option String
  source : Option (List String)
  validpgpkeys : Option (List String)
  noextract : Option (List String)
  md5sums : Option (List String)
  sha1sums : Option (List String)
  sha256sums : Option (List String)
  sha384sums : Option (List String)
  sha512sums : Option (List String)
  groups : Option (List String)
  arch : Option (List String)
  backup : Option (List String)
  depends : Option (List String)
  makedepends : Option (List String)
  checkdepends : Option (List String)
  optdepends : Option (List String)
  conflicts : Option (List String)
  provides : Option (List String)
  replaces : Option (List String)
  options : Option (List String)
deriving DecidableEq

/-- Embeds `CargoArch::default()` (the Rust `#[derive(Default)]`):
every optional field absent. -/
def CargoArch.defaultConfig : CargoArch :=
  { maintainers := none, pkgname := none, pkgver := none, pkgrel := none
    epoch := none, pkgdesc := none, url := none, license := none
    install := none, changelog := none, source := none
    validpgpkeys := none, noextract := none, md5sums := none
    sha1sums := none, sha256sums := none, sha384sums := none
    sha512sums := none, groups := none, arch := none, backup := none
    depends := none, makedepends := none, checkdepends := none
    optdepends := none, conflicts := none, provides := none
    replaces := none, options := none }

/-- Modelled from the spec: the struct `CargoMetadata` lives in
`src/config/meta.rs`, which is not among the sources; arch.rs accesses
only its optional `arch` field (`[package.metadata.arch]` table), and the
spec describes the metadata block as an optional nested table. -/
structure CargoMetadata where
  arch : Option CargoArch
deriving DecidableEq

/-- Modelled from the spec: `CargoMetadata::default()` with the nested
table absent. -/
def CargoMetadata.defaultConfig : CargoMetadata :=
  { arch := none }

/-- Modelled from the spec: the `CargoPackage` struct of
`src/config/core.rs` is not among the sources.  Its shape follows §3
RawManifest (name, version, authors as an ordered list, description,
license as a single slash-delimited string, optional homepage, optional
repository, optional nested metadata block) and matches every access
arch.rs performs on `self.package`. -/
structure CargoPackage where
  name : String
  version : String
  authors : List String
  description : String
  license : String
  homepage : Option String
  repository : Option String
  metadata : Option CargoMetadata
deriving DecidableEq

/-- Modelled from the spec: the `Cargo` struct of `src/config/core.rs`
(the parsed manifest), holding the `[package]` table. -/
structure Cargo where
  package : CargoPackage
deriving DecidableEq

/-- Embeds the resolved configuration struct `ArchConfig`
(arch.rs lines 82-147): no optional fields remain. -/
structure ArchConfig where
  maintainers : List String
  pkgname : String
  pkgver : String
  pkgrel : String
  epoch : String
  pkgdesc : String
  url : String
  license : List String
  install : String
  changelog : String
  source : List String
  validpgpkeys : List String
  noextract : List String
  md5sums : List String
  sha1sums : List String
  sha256sums : List String
  sha384sums : List String
  sha512sums : List String
  groups : List String
  arch : List String
  backup : List String
  depends : List String
  makedepends : List String
  checkdepends : List String
  optdepends : List String
  conflicts : List String
  provides : List String
  replaces : List String
  options : List String
deriving DecidableEq

/-- Embeds the local binding `arch_config` of `ToPackageConfig::to_config`
(arch.rs line 245): the metadata block defaulted when absent, then its
`arch` table defaulted when absent. -/
def Cargo.archConfig (self : Cargo) : CargoArch :=
  ((self.package.metadata.getD CargoMetadata.defaultConfig).arch).getD
    CargoArch.defaultConfig

/-- Embeds `ToPackageConfig::<ArchConfig>::to_config` for `Cargo`
(arch.rs lines 242-317): per-field resolution of the canonical
configuration.  Rust `unwrap_or` is `Option.getD`, Rust `Option::or` is
`Option.or`, `clone()` is the identity. -/
def Cargo.to_config (self : Cargo) : ArchConfig :=
  let arch_config := self.archConfig
  { maintainers := arch_config.maintainers.getD self.package.authors
    pkgname := arch_config.pkgname.getD self.package.name
    pkgver := arch_config.pkgver.getD self.package.version
    pkgrel := arch_config.pkgrel.getD "1"
    epoch := arch_config.epoch.getD "0"
    pkgdesc := arch_config.pkgdesc.getD self.package.description
    url := ((arch_config.url.or self.package.homepage).or
      self.package.repository).getD ""
    license := arch_config.license.getD (splitOnChar '/' self.package.license)
    install := arch_config.install.getD ""
    changelog := arch_config.changelog.getD ""
    source := arch_config.source.getD []
    validpgpkeys := arch_config.validpgpkeys.getD []
    noextract := arch_config.noextract.getD []
    md5sums := arch_config.md5sums.getD []
    sha1sums := arch_config.sha1sums.getD []
    sha256sums := arch_config.sha256sums.getD []
    sha384sums := arch_config.sha384sums.getD []
    sha512sums := arch_config.sha512sums.getD []
    groups := arch_config.groups.getD []
    arch := arch_config.arch.getD []
    backup := arch_config.backup.getD []
    depends := arch_config.depends.getD []
    makedepends := arch_config.makedepends.getD []
    checkdepends := arch_config.checkdepends.getD []
    optdepends := arch_config.optdepends.getD []
    conflicts := arch_config.conflicts.getD []
    provides := arch_config.provides.getD []
    replaces := arch_config.replaces.getD []
    options := arch_config.options.getD [] }

/-- Embeds the helper `quote_data` (arch.rs lines 179-197): an empty
vector yields the empty string; otherwise the first element is pushed
double-quoted and each later element is appended as `, "elem"`. -/
def quote_data (data : List String) : String :=
  match data with
  | [] => ""
  | d0 :: rest =>
    rest.foldl (fun buffer i => buffer ++ ", \"" ++ i ++ "\"")
      ("\"" ++ d0 ++ "\"")

example : quote_data [] = "" := by decide
example : quote_data ["MIT"] = "\"MIT\"" := by decide
example : quote_data ["a", "b"] = "\"a\", \"b\"" := by decide
example : splitOnChar '/' "MIT/Apache-2.0" = ["MIT", "Apache-2.0"] := by decide
example : splitOnChar '/' "MIT" = ["MIT"] := by decide
example : dashToUnderscore "1.2.0-beta" = "1.2.0_beta" := by decide

/-- A file-system action issued by the generator: creating the output
file, or writing text to it. -/
inductive FsEvent where
  | create (name : String)
  | write (name : String) (content : String)
deriving DecidableEq

/-- The state threaded through `generate_pkgbuild`: the in-memory
string buffer and the trace of file-system actions issued so far. -/
structure GenState where
  buffer : String
  events : List FsEvent
deriving DecidableEq

/-- Embeds `buffer.push_str(..)` (and the `add_data!` sugar, which
expands to a `push_str` of the formatted line). -/
def pushStr (s : String) (st : GenState) : GenState :=
  { st with buffer := st.buffer ++ s }

/-- Embeds `File::create(name)` (arch.rs line 236) as a trace action. -/
def createFile (name : String) (st : GenState) : GenState :=
  { st with events := st.events ++ [FsEvent.create name] }

/-- Embeds `write!(file, "{}", buffer)` (arch.rs line 237): a single
write of the buffer as it stands at that statement. -/
def writeWholeBuffer (name : String) (st : GenState) : GenState :=
  { st with events := st.events ++ [FsEvent.write name st.buffer] }

/-- Embeds `ArchConfig::generate_pkgbuild` (arch.rs lines 170-238),
one Rust statement per step, in source order.  The `include_str!` text
of `src/config/PKGBUILD-TEMPLATE` is not among the sources, so the
template is a parameter. -/
def ArchConfig.generate_pkgbuild_run (self : ArchConfig)
    (template : String) : GenState :=
  let st : GenState := { buffer := "", events := [] }
  let st := self.maintainers.foldl
    (fun st i => pushStr ("# Maintainer: " ++ i ++ "\n") st) st
  let st := pushStr "\n" st
  let st := pushStr ("pkgname=" ++ self.pkgname ++ "\n") st
  let st := pushStr ("pkgver=" ++ dashToUnderscore self.pkgver ++ "\n") st
  let st := pushStr ("pkgrel=" ++ self.pkgrel ++ "\n") st
  let st := pushStr ("epoch=" ++ self.epoch ++ "\n") st
  let st := pushStr ("pkgdesc=\"" ++ self.pkgdesc ++ "\"\n") st
  let st := pushStr ("url=\"" ++ self.url ++ "\"\n") st
  let st := pushStr ("license=(" ++ quote_data self.license ++ ")\n") st
  let st := pushStr ("install=\"" ++ self.install ++ "\"\n") st
  let st := pushStr ("changelog=\"" ++ self.changelog ++ "\"\n") st
  let st := pushStr ("source=(" ++ quote_data self.source ++ ")\n") st
  let st := pushStr ("validpgpkeys=(" ++ quote_data self.validpgpkeys ++ ")\n") st
  let st := pushStr ("noextract=(" ++ quote_data self.noextract ++ ")\n") st
  let st := pushStr ("md5sums=(" ++ quote_data self.md5sums ++ ")\n") st
  let st := pushStr ("sha1sums=(" ++ quote_data self.sha1sums ++ ")\n") st
  let st := pushStr ("sha256sums=(" ++ quote_data self.sha256sums ++ ")\n") st
  let st := pushStr ("sha384sums=(" ++ quote_data self.sha384sums ++ ")\n") st
  let st := pushStr ("sha512sums=(" ++ quote_data self.sha512sums ++ ")\n") st
  let st := pushStr ("groups=(" ++ quote_data self.groups ++ ")\n") st
  let st := pushStr ("arch=(" ++ quote_data self.arch ++ ")\n") st
  let st := pushStr ("backup=(" ++ quote_data self.backup ++ ")\n") st
  let st := pushStr ("depends=(" ++ quote_data self.depends ++ ")\n") st
  let st := pushStr ("makedepends=(" ++ quote_data self.makedepends ++ ")\n") st
  let st := pushStr ("checkdepends=(" ++ quote_data self.checkdepends ++ ")\n") st
  let st := pushStr ("optdepends=(" ++ quote_data self.optdepends ++ ")\n") st
  let st := pushStr ("conflicts=(" ++ quote_data self.conflicts ++ ")\n") st
  let st := pushStr ("provides=(" ++ quote_data self.provides ++ ")\n") st
  let st := pushStr ("replaces=(" ++ quote_data self.replaces ++ ")\n") st
  let st := pushStr ("options=(" ++ quote_data self.options ++ ")\n") st
  let st := pushStr "\n" st
  let st := pushStr template st
  let st := createFile "PKGBUILD" st
  let st := writeWholeBuffer "PKGBUILD" st
  st

/-- The complete PKGBUILD text: the buffer produced by
`generate_pkgbuild`. -/
def ArchConfig.generate_pkgbuild (self : ArchConfig)
    (template : String) : String :=
  (self.generate_pkgbuild_run template).buffer

theorem str_append_assoc (a b c : String) : a ++ b ++ c = a ++ (b ++ c) := by
  apply String.ext
  simp [String.data_append, List.append_assoc]

theorem str_append_empty (s : String) : s ++ "" = s := by
  apply String.ext
  simp [String.data_append]

theorem str_empty_append (s : String) : "" ++ s = s := by
  apply String.ext
  simp [String.data_append]

theorem str_join_nil : String.join [] = "" := rfl

theorem str_foldl_append (ms : List String) (b : String) :
    ms.foldl (fun r s => r ++ s) b = b ++ ms.foldl (fun r s => r ++ s) "" := by
  induction ms generalizing b with
  | nil => simp [str_append_empty]
  | cons x xs ih =>
    simp only [List.foldl]
    rw [ih (b ++ x), ih ("" ++ x), str_empty_append, str_append_assoc]

theorem str_join_cons (x : String) (xs : List String) :
    String.join (x :: xs) = x ++ String.join xs := by
  show List.foldl (fun r s => r ++ s) ("" ++ x) xs = _
  rw [str_foldl_append, str_empty_append]
  rfl

theorem pushStr_buffer (s : String) (st : GenState) :
    (pushStr s st).buffer = st.buffer ++ s := rfl

theorem pushStr_events (s : String) (st : GenState) :
    (pushStr s st).events = st.events := rfl

theorem createFile_buffer (n : String) (st : GenState) :
    (createFile n st).buffer = st.buffer := rfl

theorem createFile_events (n : String) (st : GenState) :
    (createFile n st).events = st.events ++ [FsEvent.create n] := rfl

theorem writeWholeBuffer_buffer (n : String) (st : GenState) :
    (writeWholeBuffer n st).buffer = st.buffer := rfl

theorem writeWholeBuffer_events (n : String) (st : GenState) :
    (writeWholeBuffer n st).events =
      st.events ++ [FsEvent.write n st.buffer] := rfl

theorem foldl_pushStr_buffer (f : String → String) (ms : List String)
    (st : GenState) :
    (ms.foldl (fun st i => pushStr (f i) st) st).buffer =
      st.buffer ++ String.join (ms.map f) := by
  induction ms generalizing st with
  | nil => simp [str_append_empty, str_join_nil]
  | cons x xs ih =>
    simp only [List.foldl, List.map, str_join_cons]
    rw [ih, pushStr_buffer, str_append_assoc]

theorem foldl_pushStr_events (f : String → String) (ms : List String)
    (st : GenState) :
    (ms.foldl (fun st i => pushStr (f i) st) st).events = st.events := by
  induction ms generalizing st with
  | nil => rfl
  | cons x xs ih =>
    simp only [List.foldl]
    rw [ih, pushStr_events]

/-- The maintainer comment header: one `# Maintainer: <name>` line per
maintainer, in original order (spec §4.2). -/
def ArchConfig.maintainerHeader (self : ArchConfig) : String :=
  String.join (self.maintainers.map fun i => "# Maintainer: " ++ i ++ "\n")

/-- The 28 field lines of the PKGBUILD body, each a full `key=value`
line ending in a newline, in the order the source emits them. -/
def ArchConfig.fieldLines (self : ArchConfig) : List String :=
  ["pkgname=" ++ self.pkgname ++ "\n",
   "pkgver=" ++ dashToUnderscore self.pkgver ++ "\n",
   "pkgrel=" ++ self.pkgrel ++ "\n",
   "epoch=" ++ self.epoch ++ "\n",
   "pkgdesc=\"" ++ self.pkgdesc ++ "\"\n",
   "url=\"" ++ self.url ++ "\"\n",
   "license=(" ++ quote_data self.license ++ ")\n",
   "install=\"" ++ self.install ++ "\"\n",
   "changelog=\"" ++ self.changelog ++ "\"\n",
   "source=(" ++ quote_data self.source ++ ")\n",
   "validpgpkeys=(" ++ quote_data self.validpgpkeys ++ ")\n",
   "noextract=(" ++ quote_data self.noextract ++ ")\n",
   "md5sums=(" ++ quote_data self.md5sums ++ ")\n",
   "sha1sums=(" ++ quote_data self.sha1sums ++ ")\n",
   "sha256sums=(" ++ quote_data self.sha256sums ++ ")\n",
   "sha384sums=(" ++ quote_data self.sha384sums ++ ")\n",
   "sha512sums=(" ++ quote_data self.sha512sums ++ ")\n",
   "groups=(" ++ quote_data self.groups ++ ")\n",
   "arch=(" ++ quote_data self.arch ++ ")\n",
   "backup=(" ++ quote_data self.backup ++ ")\n",
   "depends=(" ++ quote_data self.depends ++ ")\n",
   "makedepends=(" ++ quote_data self.makedepends ++ ")\n",
   "checkdepends=(" ++ quote_data self.checkdepends ++ ")\n",
   "optdepends=(" ++ quote_data self.optdepends ++ ")\n",
   "conflicts=(" ++ quote_data self.conflicts ++ ")\n",
   "provides=(" ++ quote_data self.provides ++ ")\n",
   "replaces=(" ++ quote_data self.replaces ++ ")\n",
   "options=(" ++ quote_data self.options ++ ")\n"]

/-- The fixed 28-key field order of spec §4.2. -/
def fieldOrder : List String :=
  ["pkgname", "pkgver", "pkgrel", "epoch", "pkgdesc", "url", "license",
   "install", "changelog", "source", "validpgpkeys", "noextract",
   "md5sums", "sha1sums", "sha256sums", "sha384sums", "sha512sums",
   "groups", "arch", "backup", "depends", "makedepends", "checkdepends",
   "optdepends", "conflicts", "provides", "replaces", "options"]

/-- The key of a rendered `key=value` line: the characters before the
first `=`. -/
def lineKey (s : String) : String :=
  String.mk (s.data.takeWhile fun c => c ≠ '=')

theorem generate_pkgbuild_decomp (self : ArchConfig) (template : String) :
    self.generate_pkgbuild template =
      self.maintainerHeader ++ "\n" ++ String.join self.fieldLines
        ++ "\n" ++ template := by
  simp only [ArchConfig.generate_pkgbuild, ArchConfig.generate_pkgbuild_run,
    ArchConfig.maintainerHeader, ArchConfig.fieldLines,
    writeWholeBuffer_buffer, createFile_buffer, pushStr_buffer,
    foldl_pushStr_buffer, str_join_cons, str_join_nil,
    str_empty_append, str_append_empty, str_append_assoc]

/-- An override block with every field present, for concrete checks. -/
def overrideAll : CargoArch :=
  { maintainers := some ["M <m@x>"], pkgname := some "foo"
    pkgver := some "9.9", pkgrel := some "3", epoch := some "2"
    pkgdesc := some "odesc", url := some "https://o"
    license := some ["GPL-3.0"], install := some "inst.sh"
    changelog := some "ch.log", source := some ["s1"]
    validpgpkeys := some ["K"], noextract := some ["n1"]
    md5sums := some ["m1"], sha1sums := some ["h1"]
    sha256sums := some ["h2"], sha384sums := some ["h3"]
    sha512sums := some ["h4"], groups := some ["g"]
    arch := some ["x86_64"], backup := some ["b"]
    depends := some ["d"], makedepends := some ["md"]
    checkdepends := some ["cd"], optdepends := some ["od"]
    conflicts := some ["c"], provides := some ["p"]
    replaces := some ["r"], options := some ["strip"] }

/-- A manifest whose override block sets every field. -/
def cargoFull : Cargo :=
  { package := { name := "bar", version := "0.1.0"
                 authors := ["A <a@x.com>"], description := "d"
                 license := "MIT", homepage := some "https://a"
                 repository := some "https://b"
                 metadata := some { arch := some overrideAll } } }

/-- A manifest with no metadata block, homepage and repository both set. -/
def cargoNoMeta : Cargo :=
  { package := { name := "demo", version := "0.1.0"
                 authors := ["A <a@x.com>"], description := "d"
                 license := "MIT", homepage := some "https://a"
                 repository := some "https://b", metadata := none } }

/-- A manifest with no metadata block and no homepage. -/
def cargoRepoOnly : Cargo :=
  { package := { name := "demo", version := "0.1.0"
                 authors := ["A <a@x.com>"], description := "d"
                 license := "MIT", homepage := none
                 repository := some "https://b", metadata := none } }

/-- A manifest with no metadata block, no homepage, no repository. -/
def cargoBare : Cargo :=
  { package := { name := "demo", version := "0.1.0"
                 authors := ["A <a@x.com>"], description := "d"
                 license := "MIT", homepage := none
                 repository := none, metadata := none } }

/-- C1: for every field of the `[package.metadata.arch]` override block
that is present, the resolved `ArchConfig` value of that field equals
the override value, whatever the manifest holds. -/
theorem override_precedence (c : Cargo) :
    (∀ v, c.archConfig.maintainers = some v → (c.to_config).maintainers = v) ∧
    (∀ v, c.archConfig.pkgname = some v → (c.to_config).pkgname = v) ∧
    (∀ v, c.archConfig.pkgver = some v → (c.to_config).pkgver = v) ∧
    (∀ v, c.archConfig.pkgrel = some v → (c.to_config).pkgrel = v) ∧
    (∀ v, c.archConfig.epoch = some v → (c.to_config).epoch = v) ∧
    (∀ v, c.archConfig.pkgdesc = some v → (c.to_config).pkgdesc = v) ∧
    (∀ v, c.archConfig.url = some v → (c.to_config).url = v) ∧
    (∀ v, c.archConfig.license = some v → (c.to_config).license = v) ∧
    (∀ v, c.archConfig.install = some v → (c.to_config).install = v) ∧
    (∀ v, c.archConfig.changelog = some v → (c.to_config).changelog = v) ∧
    (∀ v, c.archConfig.source = some v → (c.to_config).source = v) ∧
    (∀ v, c.archConfig.validpgpkeys = some v → (c.to_config).validpgpkeys = v) ∧
    (∀ v, c.archConfig.noextract = some v → (c.to_config).noextract = v) ∧
    (∀ v, c.archConfig.md5sums = some v → (c.to_config).md5sums = v) ∧
    (∀ v, c.archConfig.sha1sums = some v → (c.to_config).sha1sums = v) ∧
    (∀ v, c.archConfig.sha256sums = some v → (c.to_config).sha256sums = v) ∧
    (∀ v, c.archConfig.sha384sums = some v → (c.to_config).sha384sums = v) ∧
    (∀ v, c.archConfig.sha512sums = some v → (c.to_config).sha512sums = v) ∧
    (∀ v, c.archConfig.groups = some v → (c.to_config).groups = v) ∧
    (∀ v, c.archConfig.arch = some v → (c.to_config).arch = v) ∧
    (∀ v, c.archConfig.backup = some v → (c.to_config).backup = v) ∧
    (∀ v, c.archConfig.depends = some v → (c.to_config).depends = v) ∧
    (∀ v, c.archConfig.makedepends = some v → (c.to_config).makedepends = v) ∧
    (∀ v, c.archConfig.checkdepends = some v → (c.to_config).checkdepends = v) ∧
    (∀ v, c.archConfig.optdepends = some v → (c.to_config).optdepends = v) ∧
    (∀ v, c.archConfig.conflicts = some v → (c.to_config).conflicts = v) ∧
    (∀ v, c.archConfig.provides = some v → (c.to_config).provides = v) ∧
    (∀ v, c.archConfig.replaces = some v → (c.to_config).replaces = v) ∧
    (∀ v, c.archConfig.options = some v → (c.to_config).options = v) := by
  refine ⟨fun v h => ?_, fun v h => ?_, fun v h => ?_, fun v h => ?_,
    fun v h => ?_, fun v h => ?_, fun v h => ?_, fun v h => ?_,
    fun v h => ?_, fun v h => ?_, fun v h => ?_, fun v h => ?_,
    fun v h => ?_, fun v h => ?_, fun v h => ?_, fun v h => ?_,
    fun v h => ?_, fun v h => ?_, fun v h => ?_, fun v h => ?_,
    fun v h => ?_, fun v h => ?_, fun v h => ?_, fun v h => ?_,
    fun v h => ?_, fun v h => ?_, fun v h => ?_, fun v h => ?_,
    fun v h => ?_⟩ <;>
  simp [Cargo.to_config, Option.or, h]

/-- Witness for C1: the full-override manifest resolves every field to
its override value, even where the manifest disagrees. -/
theorem override_precedence_witness :
    (cargoFull.to_config).maintainers = ["M <m@x>"] ∧
    (cargoFull.to_config).pkgname = "foo" ∧
    (cargoFull.to_config).pkgver = "9.9" ∧
    (cargoFull.to_config).pkgrel = "3" ∧
    (cargoFull.to_config).epoch = "2" ∧
    (cargoFull.to_config).pkgdesc = "odesc" ∧
    (cargoFull.to_config).url = "https://o" ∧
    (cargoFull.to_config).license = ["GPL-3.0"] ∧
    (cargoFull.to_config).install = "inst.sh" ∧
    (cargoFull.to_config).changelog = "ch.log" ∧
    (cargoFull.to_config).source = ["s1"] ∧
    (cargoFull.to_config).validpgpkeys = ["K"] ∧
    (cargoFull.to_config).noextract = ["n1"] ∧
    (cargoFull.to_config).md5sums = ["m1"] ∧
    (cargoFull.to_config).sha1sums = ["h1"] ∧
    (cargoFull.to_config).sha256sums = ["h2"] ∧
    (cargoFull.to_config).sha384sums = ["h3"] ∧
    (cargoFull.to_config).sha512sums = ["h4"] ∧
    (cargoFull.to_config).groups = ["g"] ∧
    (cargoFull.to_config).arch = ["x86_64"] ∧
    (cargoFull.to_config).backup = ["b"] ∧
    (cargoFull.to_config).depends = ["d"] ∧
    (cargoFull.to_config).makedepends = ["md"] ∧
    (cargoFull.to_config).checkdepends = ["cd"] ∧
    (cargoFull.to_config).optdepends = ["od"] ∧
    (cargoFull.to_config).conflicts = ["c"] ∧
    (cargoFull.to_config).provides = ["p"] ∧
    (cargoFull.to_config).replaces = ["r"] ∧
    (cargoFull.to_config).options = ["strip"] := by
  obtain ⟨h1, h2, h3, h4, h5, h6, h7, h8, h9, h10, h11, h12, h13, h14,
    h15, h16, h17, h18, h19, h20, h21, h22, h23, h24, h25, h26, h27,
    h28, h29⟩ := override_precedence cargoFull
  exact ⟨h1 _ rfl, h2 _ rfl, h3 _ rfl, h4 _ rfl, h5 _ rfl, h6 _ rfl,
    h7 _ rfl, h8 _ rfl, h9 _ rfl, h10 _ rfl, h11 _ rfl, h12 _ rfl,
    h13 _ rfl, h14 _ rfl, h15 _ rfl, h16 _ rfl, h17 _ rfl, h18 _ rfl,
    h19 _ rfl, h20 _ rfl, h21 _ rfl, h22 _ rfl, h23 _ rfl, h24 _ rfl,
    h25 _ rfl, h26 _ rfl, h27 _ rfl, h28 _ rfl, h29 _ rfl⟩

/-- C3: the resolved url follows exactly the chain override, else
homepage, else repository, else the empty string; the first present
value wins. -/
theorem url_fallback_chain (c : Cargo) :
    (∀ v, c.archConfig.url = some v → (c.to_config).url = v) ∧
    (c.archConfig.url = none →
      ∀ v, c.package.homepage = some v → (c.to_config).url = v) ∧
    (c.archConfig.url = none → c.package.homepage = none →
      ∀ v, c.package.repository = some v → (c.to_config).url = v) ∧
    (c.archConfig.url = none → c.package.homepage = none →
      c.package.repository = none → (c.to_config).url = "") := by
  refine ⟨fun v h => ?_, fun h v h2 => ?_, fun h h2 v h3 => ?_,
    fun h h2 h3 => ?_⟩ <;>
  simp [Cargo.to_config, Option.or, *]

/-- Witness for C3: the four chain positions on concrete manifests. -/
theorem url_fallback_chain_witness :
    (cargoFull.to_config).url = "https://o" ∧
    (cargoNoMeta.to_config).url = "https://a" ∧
    (cargoRepoOnly.to_config).url = "https://b" ∧
    (cargoBare.to_config).url = "" :=
  ⟨(url_fallback_chain cargoFull).1 _ rfl,
   (url_fallback_chain cargoNoMeta).2.1 rfl _ rfl,
   (url_fallback_chain cargoRepoOnly).2.2.1 rfl rfl _ rfl,
   (url_fallback_chain cargoBare).2.2.2 rfl rfl rfl⟩

/-- C7: with the override absent, pkgrel resolves to the literal "1",
epoch to "0", install and changelog to the empty string, and every
array field to the empty sequence. -/
theorem field_defaults (c : Cargo) :
    (c.archConfig.pkgrel = none → (c.to_config).pkgrel = "1") ∧
    (c.archConfig.epoch = none → (c.to_config).epoch = "0") ∧
    (c.archConfig.install = none → (c.to_config).install = "") ∧
    (c.archConfig.changelog = none → (c.to_config).changelog = "") ∧
    (c.archConfig.source = none → (c.to_config).source = []) ∧
    (c.archConfig.validpgpkeys = none → (c.to_config).validpgpkeys = []) ∧
    (c.archConfig.noextract = none → (c.to_config).noextract = []) ∧
    (c.archConfig.md5sums = none → (c.to_config).md5sums = []) ∧
    (c.archConfig.sha1sums = none → (c.to_config).sha1sums = []) ∧
    (c.archConfig.sha256sums = none → (c.to_config).sha256sums = []) ∧
    (c.archConfig.sha384sums = none → (c.to_config).sha384sums = []) ∧
    (c.archConfig.sha512sums = none → (c.to_config).sha512sums = []) ∧
    (c.archConfig.groups = none → (c.to_config).groups = []) ∧
    (c.archConfig.arch = none → (c.to_config).arch = []) ∧
    (c.archConfig.backup = none → (c.to_config).backup = []) ∧
    (c.archConfig.depends = none → (c.to_config).depends = []) ∧
    (c.archConfig.makedepends = none → (c.to_config).makedepends = []) ∧
    (c.archConfig.checkdepends = none → (c.to_config).checkdepends = []) ∧
    (c.archConfig.optdepends = none → (c.to_config).optdepends = []) ∧
    (c.archConfig.conflicts = none → (c.to_config).conflicts = []) ∧
    (c.archConfig.provides = none → (c.to_config).provides = []) ∧
    (c.archConfig.replaces = none → (c.to_config).replaces = []) ∧
    (c.archConfig.options = none → (c.to_config).options = []) := by
  refine ⟨fun h => ?_, fun h => ?_, fun h => ?_, fun h => ?_, fun h => ?_,
    fun h => ?_, fun h => ?_, fun h => ?_, fun h => ?_, fun h => ?_,
    fun h => ?_, fun h => ?_, fun h => ?_, fun h => ?_, fun h => ?_,
    fun h => ?_, fun h => ?_, fun h => ?_, fun h => ?_, fun h => ?_,
    fun h => ?_, fun h => ?_, fun h => ?_⟩ <;>
  simp [Cargo.to_config, h]

/-- Witness for C7: a manifest with no metadata block resolves every
defaulted field to its fixed default. -/
theorem field_defaults_witness :
    (cargoBare.to_config).pkgrel = "1" ∧
    (cargoBare.to_config).epoch = "0" ∧
    (cargoBare.to_config).install = "" ∧
    (cargoBare.to_config).changelog = "" ∧
    (cargoBare.to_config).source = [] ∧
    (cargoBare.to_config).validpgpkeys = [] ∧
    (cargoBare.to_config).noextract = [] ∧
    (cargoBare.to_config).md5sums = [] ∧
    (cargoBare.to_config).sha1sums = [] ∧
    (cargoBare.to_config).sha256sums = [] ∧
    (cargoBare.to_config).sha384sums = [] ∧
    (cargoBare.to_config).sha512sums = [] ∧
    (cargoBare.to_config).groups = [] ∧
    (cargoBare.to_config).arch = [] ∧
    (cargoBare.to_config).backup = [] ∧
    (cargoBare.to_config).depends = [] ∧
    (cargoBare.to_config).makedepends = [] ∧
    (cargoBare.to_config).checkdepends = [] ∧
    (cargoBare.to_config).optdepends = [] ∧
    (cargoBare.to_config).conflicts = [] ∧
    (cargoBare.to_config).provides = [] ∧
    (cargoBare.to_config).replaces = [] ∧
    (cargoBare.to_config).options = [] := by
  obtain ⟨h1, h2, h3, h4, h5, h6, h7, h8, h9, h10, h11, h12, h13, h14,
    h15, h16, h17, h18, h19, h20, h21, h22, h23⟩ := field_defaults cargoBare
  exact ⟨h1 rfl, h2 rfl, h3 rfl, h4 rfl, h5 rfl, h6 rfl, h7 rfl, h8 rfl,
    h9 rfl, h10 rfl, h11 rfl, h12 rfl, h13 rfl, h14 rfl, h15 rfl,
    h16 rfl, h17 rfl, h18 rfl, h19 rfl, h20 rfl, h21 rfl, h22 rfl,
    h23 rfl⟩

/-- An override block that sets only the url, to the empty string. -/
def overrideEmptyUrl : CargoArch :=
  { CargoArch.defaultConfig with url := some "" }

/-- A manifest overriding url with the empty string while homepage and
repository are both present. -/
def cargoEmptyUrlOverride : Cargo :=
  { package := { name := "demo", version := "0.1.0"
                 authors := ["A <a@x.com>"], description := "d"
                 license := "MIT", homepage := some "https://a"
                 repository := some "https://b"
                 metadata := some { arch := some overrideEmptyUrl } } }

/-- A manifest with a present-but-empty homepage and a present
repository, no override block. -/
def cargoEmptyHome : Cargo :=
  { package := { name := "demo", version := "0.1.0"
                 authors := ["A <a@x.com>"], description := "d"
                 license := "MIT", homepage := some ""
                 repository := some "https://b", metadata := none } }

/-- C10: each step of the url chain is decided by presence, not
non-emptiness: a present-but-empty override beats a present homepage or
repository, and a present-but-empty homepage beats a present
repository. -/
theorem url_presence_decides (c : Cargo) :
    (c.archConfig.url = some "" → (c.to_config).url = "") ∧
    (c.archConfig.url = none → c.package.homepage = some "" →
      (c.to_config).url = "") := by
  refine ⟨fun h => ?_, fun h h2 => ?_⟩ <;>
  simp [Cargo.to_config, Option.or, *]

/-- Witness for C10: the empty-string override and the empty-string
homepage each suppress the later chain steps on concrete manifests. -/
theorem url_presence_decides_witness :
    (cargoEmptyUrlOverride.to_config).url = "" ∧
    (cargoEmptyHome.to_config).url = "" :=
  ⟨(url_presence_decides cargoEmptyUrlOverride).1 rfl,
   (url_presence_decides cargoEmptyHome).2 rfl rfl⟩

/-- Stated from the spec's words (§4.1 item 4): remove leading and
trailing whitespace from a string. -/
def trimWhitespace (s : String) : String :=
  String.mk
    (((s.data.dropWhile Char.isWhitespace).reverse.dropWhile
      Char.isWhitespace).reverse)

/-- Stated from the spec's words (§4.1 item 4): split the manifest's
single license string on `/` into a sequence of trimmed substrings. -/
def specLicenseSplitTrimmed (s : String) : List String :=
  (splitOnChar '/' s).map trimWhitespace

example : trimWhitespace " Apache-2.0 " = "Apache-2.0" := by decide
example : specLicenseSplitTrimmed "MIT / Apache-2.0" = ["MIT", "Apache-2.0"] := by
  decide

/-- A manifest whose license string has spaces around the slash and no
override block. -/
def cargoSlashSpaces : Cargo :=
  { package := { name := "demo", version := "0.1.0"
                 authors := ["A <a@x.com>"], description := "d"
                 license := "MIT / Apache-2.0", homepage := none
                 repository := none, metadata := none } }

/-- Counterexample to C2 as stated: with no override and manifest
license `"MIT / Apache-2.0"`, the code resolves the license to the
untrimmed pieces `["MIT ", " Apache-2.0"]`, not to the trimmed split
the claim describes. -/
theorem license_split_trim_counterexample :
    (cargoSlashSpaces.to_config).license ≠
      specLicenseSplitTrimmed cargoSlashSpaces.package.license := by
  decide

/-- The split of a list without the separator is the single whole
piece. -/
theorem splitCharList_no_sep (sep : Char) :
    ∀ l : List Char, (∀ ch ∈ l, ch ≠ sep) → splitCharList sep l = [l] := by
  intro l
  induction l with
  | nil => intro _; rfl
  | cons c cs ih =>
    intro h
    have hc : c ≠ sep := h c (List.mem_cons_self c cs)
    have hrest := ih fun ch hch => h ch (List.mem_cons_of_mem c hch)
    simp [splitCharList, hrest, hc]

/-- C2 amended: when the license override is absent, the resolved
license equals the manifest's single license string split on `/` into
verbatim (untrimmed) substrings; an input containing no `/` yields a
single-element sequence. -/
theorem license_split_verbatim (c : Cargo) :
    (c.archConfig.license = none →
      (c.to_config).license = splitOnChar '/' c.package.license) ∧
    (∀ s : String, (∀ ch ∈ s.data, ch ≠ '/') →
      (splitOnChar '/' s).length = 1) := by
  constructor
  · intro h
    simp [Cargo.to_config, h]
  · intro s hs
    simp [splitOnChar, splitCharList_no_sep '/' s.data hs]

/-- Witness for C2 amended: the slash-with-spaces manifest resolves to
the verbatim pieces, and a slash-free license splits to one element. -/
theorem license_split_verbatim_witness :
    (cargoSlashSpaces.to_config).license = ["MIT ", " Apache-2.0"] ∧
    (splitOnChar '/' "MIT").length = 1 := by
  constructor
  · rw [(license_split_verbatim cargoSlashSpaces).1 rfl]
    decide
  · exact (license_split_verbatim cargoSlashSpaces).2 "MIT" (by decide)

/-- C4: the rendered text is the maintainer header, a blank line,
exactly one `key=value` line per field, a blank line, and the template;
the keys of the 28 field lines are exactly the fixed order of §4.2,
whatever the field contents are. -/
theorem field_order_invariant (self : ArchConfig) (template : String) :
    self.fieldLines.map lineKey = fieldOrder ∧
    self.generate_pkgbuild template =
      self.maintainerHeader ++ "\n" ++ String.join self.fieldLines
        ++ "\n" ++ template := by
  refine ⟨?_, generate_pkgbuild_decomp self template⟩
  simp +decide [ArchConfig.fieldLines, fieldOrder, lineKey,
    str_append_assoc, String.data_append, List.takeWhile_append]

/-- C9: the file-system trace of `generate_pkgbuild` is exactly one
create of `PKGBUILD` followed by one write carrying the complete
rendered text: no write happens before rendering has finished, and no
write carries a partial buffer. -/
theorem render_before_write (self : ArchConfig) (template : String) :
    (self.generate_pkgbuild_run template).events =
      [FsEvent.create "PKGBUILD",
       FsEvent.write "PKGBUILD" (self.generate_pkgbuild template)] := by
  simp only [ArchConfig.generate_pkgbuild, ArchConfig.generate_pkgbuild_run,
    writeWholeBuffer_events, writeWholeBuffer_buffer, createFile_events,
    createFile_buffer, pushStr_events, pushStr_buffer, foldl_pushStr_events,
    foldl_pushStr_buffer, List.nil_append, List.append_nil, List.cons_append,
    List.append_assoc, str_empty_append, str_append_assoc]

/-- A fully-resolved configuration with no maintainers and empty array
fields, for concrete checks. -/
def sampleResolved : ArchConfig :=
  { maintainers := [], pkgname := "demo", pkgver := "0.1.0", pkgrel := "1"
    epoch := "0", pkgdesc := "d", url := "", license := ["MIT"]
    install := "", changelog := "", source := [], validpgpkeys := []
    noextract := [], md5sums := [], sha1sums := [], sha256sums := []
    sha384sums := [], sha512sums := [], groups := [], arch := []
    backup := [], depends := [], makedepends := [], checkdepends := []
    optdepends := [], conflicts := [], provides := [], replaces := []
    options := [] }

/-- C8: the rendered text begins with one `# Maintainer: <name>` line
per maintainer in original order, then one blank line; with zero
maintainers the blank line is still emitted before the field lines. -/
theorem maintainer_header_lines (self : ArchConfig) (template : String) :
    self.generate_pkgbuild template =
      String.join (self.maintainers.map fun i => "# Maintainer: " ++ i ++ "\n")
        ++ "\n" ++ String.join self.fieldLines ++ "\n" ++ template ∧
    (self.maintainers = [] →
      self.generate_pkgbuild template =
        "\n" ++ String.join self.fieldLines ++ "\n" ++ template) := by
  have hd := generate_pkgbuild_decomp self template
  refine ⟨hd, fun h => ?_⟩
  rw [hd]
  simp [ArchConfig.maintainerHeader, h, str_join_nil, str_empty_append]

/-- Witness for C8: with zero maintainers the output still starts with
the single blank line. -/
theorem maintainer_header_lines_witness :
    sampleResolved.generate_pkgbuild "TPL" =
      "\n" ++ String.join sampleResolved.fieldLines ++ "\n" ++ "TPL" :=
  (maintainer_header_lines sampleResolved "TPL").2 rfl

/-- C6: the pkgver line carries the resolved version with every `-`
replaced by `_`, and every other field line carries its resolved value
verbatim; `"1.2.0-beta"` renders as `pkgver=1.2.0_beta`. -/
theorem version_sanitization (self : ArchConfig) (template : String) :
    self.generate_pkgbuild template =
      self.maintainerHeader ++ "\n"
      ++ ("pkgname=" ++ self.pkgname ++ "\n")
      ++ ("pkgver=" ++ dashToUnderscore self.pkgver ++ "\n")
      ++ ("pkgrel=" ++ self.pkgrel ++ "\n")
      ++ ("epoch=" ++ self.epoch ++ "\n")
      ++ ("pkgdesc=\"" ++ self.pkgdesc ++ "\"\n")
      ++ ("url=\"" ++ self.url ++ "\"\n")
      ++ ("license=(" ++ quote_data self.license ++ ")\n")
      ++ ("install=\"" ++ self.install ++ "\"\n")
      ++ ("changelog=\"" ++ self.changelog ++ "\"\n")
      ++ ("source=(" ++ quote_data self.source ++ ")\n")
      ++ ("validpgpkeys=(" ++ quote_data self.validpgpkeys ++ ")\n")
      ++ ("noextract=(" ++ quote_data self.noextract ++ ")\n")
      ++ ("md5sums=(" ++ quote_data self.md5sums ++ ")\n")
      ++ ("sha1sums=(" ++ quote_data self.sha1sums ++ ")\n")
      ++ ("sha256sums=(" ++ quote_data self.sha256sums ++ ")\n")
      ++ ("sha384sums=(" ++ quote_data self.sha384sums ++ ")\n")
      ++ ("sha512sums=(" ++ quote_data self.sha512sums ++ ")\n")
      ++ ("groups=(" ++ quote_data self.groups ++ ")\n")
      ++ ("arch=(" ++ quote_data self.arch ++ ")\n")
      ++ ("backup=(" ++ quote_data self.backup ++ ")\n")
      ++ ("depends=(" ++ quote_data self.depends ++ ")\n")
      ++ ("makedepends=(" ++ quote_data self.makedepends ++ ")\n")
      ++ ("checkdepends=(" ++ quote_data self.checkdepends ++ ")\n")
      ++ ("optdepends=(" ++ quote_data self.optdepends ++ ")\n")
      ++ ("conflicts=(" ++ quote_data self.conflicts ++ ")\n")
      ++ ("provides=(" ++ quote_data self.provides ++ ")\n")
      ++ ("replaces=(" ++ quote_data self.replaces ++ ")\n")
      ++ ("options=(" ++ quote_data self.options ++ ")\n")
      ++ "\n" ++ template ∧
    dashToUnderscore "1.2.0-beta" = "1.2.0_beta" := by
  refine ⟨?_, by decide⟩
  rw [generate_pkgbuild_decomp]
  simp [ArchConfig.fieldLines, str_join_cons, str_join_nil,
    str_append_empty, str_append_assoc]

/-- Stated from the spec's words (§4.2): a comma-space-separated list
of the given strings in original order. -/
def commaSpaceSeparated : List String → String
  | [] => ""
  | [x] => x
  | x :: y :: rest => x ++ ", " ++ commaSpaceSeparated (y :: rest)

theorem quote_foldl (rest : List String) (b : String) :
    rest.foldl (fun buffer i => buffer ++ ", \"" ++ i ++ "\"") b =
      b ++ String.join (rest.map fun i => ", \"" ++ i ++ "\"") := by
  induction rest generalizing b with
  | nil => simp [str_join_nil, str_append_empty]
  | cons x xs ih =>
    simp only [List.foldl, List.map, str_join_cons]
    rw [ih]
    simp [str_append_assoc]

theorem commaSep_cons (x : String) (l : List String) :
    commaSpaceSeparated (x :: l) =
      x ++ String.join (l.map fun i => ", " ++ i) := by
  induction l generalizing x with
  | nil => simp [commaSpaceSeparated, str_join_nil, str_append_empty]
  | cons y ys ih =>
    simp only [commaSpaceSeparated, List.map, str_join_cons]
    rw [ih]
    simp [str_append_assoc]

/-- C5: `quote_data` renders a sequence as the comma-space-separated
list of its double-quoted elements in original order (no escaping
inside elements), the empty sequence giving the empty string, so an
empty array field line is exactly `key=()`. -/
theorem array_rendering (data : List String) :
    quote_data data =
      commaSpaceSeparated (data.map fun s => "\"" ++ s ++ "\"") ∧
    (∀ self : ArchConfig, self.source = [] →
      "source=()\n" ∈ self.fieldLines) := by
  constructor
  · cases data with
    | nil => rfl
    | cons d0 rest =>
      show rest.foldl _ ("\"" ++ d0 ++ "\"") = _
      rw [quote_foldl]
      simp only [List.map_cons, commaSep_cons, List.map_map,
        Function.comp_def]
      simp [← str_append_assoc]
  · intro self h
    simp +decide [ArchConfig.fieldLines, h]

/-- Witness for C5: a two-element list renders comma-space-separated
and a resolved configuration with an empty source array carries the
exact line `source=()`. -/
theorem array_rendering_witness :
    quote_data ["a", "b"] = commaSpaceSeparated ["\"a\"", "\"b\""] ∧
    "source=()\n" ∈ sampleResolved.fieldLines := by
  constructor
  · rw [(array_rendering ["a", "b"]).1]
    decide
  · exact (array_rendering []).2 sampleResolved rfl
